import Mathlib

/-!
Verification of the Palitana Yatra scan-reconciliation core.

The development embeds the TypeScript sources shallowly in Lean:

* `utils/jatra-calculator.ts` (`calculateJatraStats`, `formatJatraCount`,
  `getJatraStatusText`) — the Lap/Jatra Derivation Engine;
* `components/missing-pilgrim-alert.tsx` (`missingPilgrims`) — the
  Missing/At-risk Detector;
* `server/google-sheets-logger.ts` (`validateScan`) — the anomaly checks;
* `server/_core/rate-limiter.ts` (`RateLimiter.check`) — the per-device
  rate limiter;
* the ingestion gate (`db.createScanLog` behind `scanLogs.create`), whose
  implementation file is not part of the sources at hand, is modelled from
  the specification (definitions marked `Modelled from the spec`).

Timestamps are modelled as ISO-8601 UTC strings together with
`parseTime`, an embedding of JavaScript `Date` parsing restricted to the
`YYYY-MM-DDTHH:MM:SS(.mmm)?Z` shapes the app produces; machine numbers
are modelled as `Int` (milliseconds) and `Nat` (counts).
-/

namespace Palitana

/-- Numeric value of a decimal digit character (its code point minus 48). -/
def digitVal (c : Char) : Int :=
  (c.toNat : Int) - 48

/-- Days since the Unix epoch of a proleptic-Gregorian civil date, the date
arithmetic JavaScript `Date` performs for ISO timestamp strings. -/
def daysFromCivil (y m d : Int) : Int :=
  let yAdj : Int := if m ≤ 2 then y - 1 else y
  let era : Int := Int.fdiv (if 0 ≤ yAdj then yAdj else yAdj - 399) 400
  let yoe : Int := yAdj - era * 400
  let doy : Int := Int.fdiv (153 * (Int.emod (m + 9) 12) + 2) 5 + d - 1
  let doe : Int := yoe * 365 + Int.fdiv yoe 4 - Int.fdiv yoe 100 + doy
  era * 146097 + doe - 719468

/-- Epoch milliseconds of an ISO-8601 UTC timestamp, reading the digits of
`YYYY-MM-DDTHH:MM:SSZ` or `YYYY-MM-DDTHH:MM:SS.mmmZ`; this embeds the
`new Date(timestamp).getTime()` calls of the app for the timestamp strings
it produces (other shapes are mapped to 0). -/
def parseTimeChars : List Char → Int
  | y1 :: y2 :: y3 :: y4 :: '-' :: mo1 :: mo2 :: '-' :: d1 :: d2 :: 'T' ::
      h1 :: h2 :: ':' :: mi1 :: mi2 :: ':' :: s1 :: s2 :: rest =>
    let year := 1000 * digitVal y1 + 100 * digitVal y2 + 10 * digitVal y3 + digitVal y4
    let month := 10 * digitVal mo1 + digitVal mo2
    let day := 10 * digitVal d1 + digitVal d2
    let hour := 10 * digitVal h1 + digitVal h2
    let minute := 10 * digitVal mi1 + digitVal mi2
    let second := 10 * digitVal s1 + digitVal s2
    let millis : Int :=
      match rest with
      | ['Z'] => 0
      | ['.', f1, f2, f3, 'Z'] => 100 * digitVal f1 + 10 * digitVal f2 + digitVal f3
      | _ => 0
    (daysFromCivil year month day * 86400 + hour * 3600 + minute * 60 + second) * 1000 + millis
  | _ => 0

/-- Epoch milliseconds of a timestamp string (see `parseTimeChars`). -/
def parseTime (s : String) : Int :=
  parseTimeChars s.data

/-- A scan-log row as consumed by the Jatra calculator (`ScanLog` in
`types`): the participant UUID, the checkpoint id and the ISO timestamp. -/
structure ScanLog where
  participantId : String
  checkpointId : Int
  timestamp : String
deriving DecidableEq

/-- Stable insertion of `x` after every already-placed element whose key is
not greater: the insertion step of a stable sort. -/
def insertStable {α : Type} (key : α → Int) (x : α) : List α → List α
  | [] => [x]
  | y :: ys => if key y ≤ key x then y :: insertStable key x ys else x :: y :: ys

/-- Stable ascending sort by an integer key. JavaScript `Array.prototype.sort`
is stable, and a stable comparison sort is determined by its comparator, so
this embeds the `sort((a, b) => keyA - keyB)` calls of the app. -/
def sortByKey {α : Type} (key : α → Int) (l : List α) : List α :=
  l.foldl (fun acc x => insertStable key x acc) []

/-- Stable descending sort by an integer key, embedding
`sort((a, b) => keyB - keyA)`. -/
def sortByKeyDesc {α : Type} (key : α → Int) (l : List α) : List α :=
  sortByKey (fun a => -(key a)) l

/-- The derived statistics record of `utils/jatra-calculator.ts`. -/
structure JatraStats where
  participantId : String
  totalJatras : Nat
  ghetiScans : Nat
  aamliScans : Nat
  frontSideScans : Nat
  lastScanTime : Option String
  isCurrentlyDescending : Bool
deriving DecidableEq

/-- The participant's logs in ascending timestamp order: the
`filter`-then-`sort` prelude of `calculateJatraStats` in
`utils/jatra-calculator.ts` (also the "subject's events in ascending time
order" the specification's derivation engine consumes). -/
def orderedEventsFor (participantId : String) (scanLogs : List ScanLog) : List ScanLog :=
  sortByKey (fun log => parseTime log.timestamp)
    (scanLogs.filter (fun log => log.participantId = participantId))

/-- Body of `calculateJatraStats` after its filter-and-sort prelude
(factored out so that theorems can rewrite the sorted list): count the
scans at each checkpoint, take every Gheti scan as one completed Jatra, take
the last scan's timestamp (the `|| null` in the source maps an empty string
to null), and report "currently descending" when there are strictly more
Aamli than Gheti scans. -/
def jatraStatsOfLogs (participantId : String) (participantLogs : List ScanLog) : JatraStats :=
  let ghetiScans := (participantLogs.filter (fun log => log.checkpointId = 2)).length
  let aamliScans := (participantLogs.filter (fun log => log.checkpointId = 1)).length
  let frontSideScans := (participantLogs.filter (fun log => log.checkpointId = 3)).length
  let totalJatras := ghetiScans
  let lastScanTime :=
    match participantLogs.getLast? with
    | some lastScan => if lastScan.timestamp = "" then none else some lastScan.timestamp
    | none => none
  let isCurrentlyDescending := decide (aamliScans > ghetiScans)
  { participantId := participantId
    totalJatras := totalJatras
    ghetiScans := ghetiScans
    aamliScans := aamliScans
    frontSideScans := frontSideScans
    lastScanTime := lastScanTime
    isCurrentlyDescending := isCurrentlyDescending }

/-- Embedding of `calculateJatraStats` from `utils/jatra-calculator.ts`. -/
def calculateJatraStats (participantId : String) (scanLogs : List ScanLog) : JatraStats :=
  jatraStatsOfLogs participantId (orderedEventsFor participantId scanLogs)

/-- Embedding of `formatJatraCount` from `utils/jatra-calculator.ts`. -/
def formatJatraCount (count : Nat) : String :=
  if count = 0 then "No Jatras"
  else if count = 1 then "1 Jatra"
  else toString count ++ " Jatras"

/-- Embedding of `getJatraStatusText` from `utils/jatra-calculator.ts`
(the bullet separator appears in the source file as the bytes rendered
here). -/
def getJatraStatusText (stats : JatraStats) : String :=
  if stats.isCurrentlyDescending then
    formatJatraCount stats.totalJatras ++ " â€¢ Currently descending"
  else if stats.totalJatras = 0 ∧ stats.aamliScans = 0 then
    "Not started"
  else
    formatJatraCount stats.totalJatras

/-! ### Permutation and sortedness facts about the stable sort -/

theorem insertStable_perm {α : Type} (key : α → Int) (x : α) :
    ∀ l : List α, (insertStable key x l).Perm (x :: l)
  | [] => List.Perm.refl _
  | y :: ys => by
    unfold insertStable
    split
    · exact ((insertStable_perm key x ys).cons y).trans (List.Perm.swap x y ys)
    · exact List.Perm.refl _

theorem foldl_insertStable_perm {α : Type} (key : α → Int) :
    ∀ (l acc : List α),
      (l.foldl (fun acc x => insertStable key x acc) acc).Perm (acc ++ l)
  | [], acc => by simp
  | x :: xs, acc => by
    simp only [List.foldl_cons]
    refine (foldl_insertStable_perm key xs (insertStable key x acc)).trans ?_
    refine ((insertStable_perm key x acc).append_right xs).trans ?_
    exact List.perm_middle.symm

theorem sortByKey_perm {α : Type} (key : α → Int) (l : List α) :
    (sortByKey key l).Perm l := by
  simpa using foldl_insertStable_perm key l []

theorem insertStable_pairwise {α : Type} (key : α → Int) (x : α) :
    ∀ {l : List α}, l.Pairwise (fun a b => key a ≤ key b) →
      (insertStable key x l).Pairwise (fun a b => key a ≤ key b)
  | [], _ => by simp [insertStable]
  | y :: ys, h => by
    rw [List.pairwise_cons] at h
    unfold insertStable
    split
    · rename_i hle
      rw [List.pairwise_cons]
      refine ⟨fun z hz => ?_, insertStable_pairwise key x h.2⟩
      rcases List.mem_cons.mp ((insertStable_perm key x ys).mem_iff.mp hz) with hz' | hz'
      · rwa [hz']
      · exact h.1 z hz'
    · rename_i hnle
      rw [List.pairwise_cons]
      refine ⟨fun z hz => ?_, List.pairwise_cons.mpr h⟩
      rcases List.mem_cons.mp hz with hz' | hz'
      · rw [hz']; exact le_of_not_le hnle
      · exact le_trans (le_of_not_le hnle) (h.1 z hz')

theorem sortByKey_pairwise {α : Type} (key : α → Int) (l : List α) :
    (sortByKey key l).Pairwise (fun a b => key a ≤ key b) := by
  have h : ∀ (l acc : List α), acc.Pairwise (fun a b => key a ≤ key b) →
      (l.foldl (fun acc x => insertStable key x acc) acc).Pairwise
        (fun a b => key a ≤ key b) := by
    intro l
    induction l with
    | nil => intro acc hacc; simpa using hacc
    | cons x xs ih =>
      intro acc hacc
      simpa using ih (insertStable key x acc) (insertStable_pairwise key x hacc)
  exact h l [] (by simp)

/-- Two permuted lists that are both strictly sorted by the key are equal. -/
theorem eq_of_perm_of_pairwise_lt {α : Type} (key : α → Int) {l₁ l₂ : List α}
    (hp : l₁.Perm l₂) (h₁ : l₁.Pairwise (fun a b => key a < key b))
    (h₂ : l₂.Pairwise (fun a b => key a < key b)) : l₁ = l₂ := by
  haveI : IsAntisymm α (fun a b => key a < key b) :=
    ⟨fun a b hab hba => absurd (lt_trans hab hba) (lt_irrefl _)⟩
  exact List.eq_of_perm_of_sorted hp h₁ h₂

/-- Permuted inputs with pairwise-distinct keys are sorted to the same list. -/
theorem sortByKey_eq_of_perm {α : Type} (key : α → Int) {l₁ l₂ : List α}
    (hp : l₁.Perm l₂) (hd : l₁.Pairwise (fun a b => key a ≠ key b)) :
    sortByKey key l₁ = sortByKey key l₂ := by
  have hperm : (sortByKey key l₁).Perm (sortByKey key l₂) :=
    ((sortByKey_perm key l₁).trans hp).trans (sortByKey_perm key l₂).symm
  have hd₂ : l₂.Pairwise (fun a b => key a ≠ key b) := hd.perm hp (fun h he => h he.symm)
  have hd₁' : (sortByKey key l₁).Pairwise (fun a b => key a ≠ key b) :=
    hd.perm (sortByKey_perm key l₁).symm (fun h he => h he.symm)
  have hd₂' : (sortByKey key l₂).Pairwise (fun a b => key a ≠ key b) :=
    hd₂.perm (sortByKey_perm key l₂).symm (fun h he => h he.symm)
  refine eq_of_perm_of_pairwise_lt key hperm ?_ ?_
  · exact ((sortByKey_pairwise key l₁).and hd₁').imp fun h => lt_of_le_of_ne h.1 h.2
  · exact ((sortByKey_pairwise key l₂).and hd₂').imp fun h => lt_of_le_of_ne h.1 h.2

/-! ### The specification's pointer-based lap derivation (for refinement
comparison with the code's count-based derivation) -/

/-- State of the specification's lap-derivation automaton: completed laps,
lap-completion events seen with no pending descent-start ("completion
without start"), and whether a descent-start pointer is currently set. -/
structure SpecLapState where
  laps : Nat
  orphans : Nat
  pending : Bool
deriving DecidableEq

/-- One step of the lap derivation as the specification words it: set the
pointer on each descent-start (Aamli, checkpoint 1) event; on a
lap-completion (Gheti, checkpoint 2) event, close a lap if a pointer is
pending and clear it, otherwise record a completion-without-start; ignore
other checkpoints. -/
def specLapStep (st : SpecLapState) (log : ScanLog) : SpecLapState :=
  if log.checkpointId = 1 then
    { st with pending := true }
  else if log.checkpointId = 2 then
    if st.pending then { laps := st.laps + 1, orphans := st.orphans, pending := false }
    else { st with orphans := st.orphans + 1 }
  else st

/-- The specification's lap derivation over an ordered event sequence. -/
def specLapScan (logs : List ScanLog) : SpecLapState :=
  logs.foldl specLapStep { laps := 0, orphans := 0, pending := false }

/-- The specification's `lapsCompleted` for a subject. -/
def specLapsCompleted (participantId : String) (scanLogs : List ScanLog) : Nat :=
  (specLapScan (orderedEventsFor participantId scanLogs)).laps

/-- The specification's `Descending` transit state: a descent-start pointer
is set with no matching completion yet. -/
def specDescending (participantId : String) (scanLogs : List ScanLog) : Prop :=
  (specLapScan (orderedEventsFor participantId scanLogs)).pending = true

/-- Invariant of the lap automaton: completed laps plus
completions-without-start equals the number of lap-completion events. -/
theorem specLapScan_laps_add_orphans (l : List ScanLog) :
    ∀ st : SpecLapState,
      (l.foldl specLapStep st).laps + (l.foldl specLapStep st).orphans
        = st.laps + st.orphans + l.countP (fun log => log.checkpointId = 2) := by
  induction l with
  | nil => intro st; simp
  | cons x xs ih =>
    intro st
    simp only [List.foldl_cons, List.countP_cons, ih]
    unfold specLapStep
    by_cases h1 : x.checkpointId = 1
    · simp [h1]
    · by_cases h2 : x.checkpointId = 2
      · by_cases hp : st.pending <;> simp [h1, h2, hp] <;> omega
      · simp [h1, h2]

/-- Claim C1 (counterexample): a single lap-completion (Gheti, checkpoint 2)
event with no pending descent-start increases the derived `totalJatras` to 1,
while the pointer-based derivation the claim describes closes no lap, so
`calculateJatraStats` does not implement the claimed "only when a pending
descent-start pointer is set" counting. -/
theorem gheti_without_start_still_counts :
    (calculateJatraStats "p" [⟨"p", 2, "2026-01-02T08:00:00Z"⟩]).totalJatras = 1 ∧
      specLapsCompleted "p" [⟨"p", 2, "2026-01-02T08:00:00Z"⟩] = 0 := by
  constructor <;> rfl

/-- Claim C1 (amended): for every subject and event sequence, the derived
`totalJatras` counts every lap-completion (Gheti) event, whether or not a
pending descent-start is set: it equals the pointer-derivation's completed
laps plus its completions-without-start. -/
theorem totalJatras_counts_every_completion (participantId : String)
    (scanLogs : List ScanLog) :
    (calculateJatraStats participantId scanLogs).totalJatras
      = (specLapScan (orderedEventsFor participantId scanLogs)).laps
        + (specLapScan (orderedEventsFor participantId scanLogs)).orphans := by
  have h := specLapScan_laps_add_orphans (orderedEventsFor participantId scanLogs)
    { laps := 0, orphans := 0, pending := false }
  simp only [specLapScan, h]
  simp [calculateJatraStats, jatraStatsOfLogs, List.countP_eq_length_filter]

/-- No Jatra-count display string collides with the "Not started" status. -/
theorem formatJatraCount_ne_notStarted (n : Nat) : formatJatraCount n ≠ "Not started" := by
  unfold formatJatraCount
  by_cases h0 : n = 0
  · simp only [h0]
    decide
  · by_cases h1 : n = 1
    · simp only [h0, h1]
      decide
    · simp only [h0, h1, if_false]
      intro h
      have hd := congrArg String.data h
      rw [String.data_append] at hd
      have hsplit : ("Not started").data = ("Not ").data ++ ("started").data := by decide
      rw [hsplit] at hd
      have h7 : (" Jatras").data.length = ("started").data.length := by decide
      have := (List.append_inj' hd h7).2
      exact absurd this (by decide)

/-- Count of a participant's scans at one checkpoint, straight off the raw
log list. -/
def scansAt (participantId : String) (checkpointId : Int) (scanLogs : List ScanLog) : Nat :=
  scanLogs.countP (fun log => log.participantId = participantId ∧ log.checkpointId = checkpointId)

/-- The per-checkpoint counters of `calculateJatraStats` count the
participant's raw scans at that checkpoint (sorting does not disturb them). -/
theorem orderedEventsFor_count (participantId : String) (checkpointId : Int)
    (scanLogs : List ScanLog) :
    ((orderedEventsFor participantId scanLogs).filter
        (fun log => log.checkpointId = checkpointId)).length
      = scansAt participantId checkpointId scanLogs := by
  unfold orderedEventsFor scansAt
  rw [← List.countP_eq_length_filter]
  rw [(sortByKey_perm (fun log => parseTime log.timestamp)
    (scanLogs.filter (fun log => log.participantId = participantId))).countP_eq]
  rw [List.countP_filter]
  refine List.countP_congr fun a _ => ?_
  simp [Bool.and_comm]

/-- Claim C4 (counterexample): with a Gheti scan followed by an Aamli scan,
the pointer-based transit state of the specification is `Descending` (the
trailing descent-start sets the pointer, unmatched), yet the code's
`isCurrentlyDescending` is `false` because the Aamli and Gheti counts tie;
and with a single checkpoint-3 scan, `getJatraStatusText` reads
"Not started" although the subject has events, refuting both "iff"s of the
claim. -/
theorem transit_state_mismatch :
    ((calculateJatraStats "p"
        [⟨"p", 2, "2026-01-02T08:00:00Z"⟩, ⟨"p", 1, "2026-01-02T09:00:00Z"⟩]).isCurrentlyDescending
          = false ∧
      specDescending "p"
        [⟨"p", 2, "2026-01-02T08:00:00Z"⟩, ⟨"p", 1, "2026-01-02T09:00:00Z"⟩]) ∧
    (getJatraStatusText (calculateJatraStats "q" [⟨"q", 3, "2026-01-02T08:00:00Z"⟩])
        = "Not started" ∧
      orderedEventsFor "q" [⟨"q", 3, "2026-01-02T08:00:00Z"⟩] ≠ []) := by
  exact ⟨⟨rfl, rfl⟩, ⟨rfl, by decide⟩⟩

/-- Claim C4 (amended): for every event sequence, the derived transit state
`isCurrentlyDescending` holds exactly when the subject has strictly more
descent-start (Aamli) scans than lap-completion (Gheti) scans — not when a
pointer is pending — and `getJatraStatusText` reads "Not started" exactly
when the subject has no Aamli scan and no Gheti scan, so a subject whose
only events are at checkpoint 3 also reads "Not started". -/
theorem transit_state_matches_counts (participantId : String) (scanLogs : List ScanLog) :
    ((calculateJatraStats participantId scanLogs).isCurrentlyDescending = true ↔
        scansAt participantId 1 scanLogs > scansAt participantId 2 scanLogs) ∧
    (getJatraStatusText (calculateJatraStats participantId scanLogs) = "Not started" ↔
        scansAt participantId 2 scanLogs = 0 ∧ scansAt participantId 1 scanLogs = 0) := by
  have haam : (calculateJatraStats participantId scanLogs).aamliScans
      = scansAt participantId 1 scanLogs := orderedEventsFor_count participantId 1 scanLogs
  have hghe : (calculateJatraStats participantId scanLogs).ghetiScans
      = scansAt participantId 2 scanLogs := orderedEventsFor_count participantId 2 scanLogs
  have htot : (calculateJatraStats participantId scanLogs).totalJatras
      = (calculateJatraStats participantId scanLogs).ghetiScans := rfl
  have hdesc : (calculateJatraStats participantId scanLogs).isCurrentlyDescending
      = decide ((calculateJatraStats participantId scanLogs).aamliScans
        > (calculateJatraStats participantId scanLogs).ghetiScans) := rfl
  constructor
  · rw [hdesc, haam, hghe]
    exact decide_eq_true_iff
  · unfold getJatraStatusText
    by_cases hb : (calculateJatraStats participantId scanLogs).isCurrentlyDescending
    · rw [if_pos hb]
      constructor
      · intro h
        have hlen := congrArg String.length h
        rw [String.length_append] at hlen
        have : (" â€¢ Currently descending").length = 25 := by decide
        rw [this] at hlen
        have : ("Not started").length = 11 := by decide
        omega
      · intro h
        rw [hdesc, haam, hghe] at hb
        have := of_decide_eq_true hb
        omega
    · rw [if_neg hb]
      by_cases hz : (calculateJatraStats participantId scanLogs).totalJatras = 0 ∧
          (calculateJatraStats participantId scanLogs).aamliScans = 0
      · rw [if_pos hz]
        rw [htot, haam, hghe] at hz
        simp [hz]
      · rw [if_neg hz]
        rw [htot, haam, hghe] at hz
        constructor
        · intro h
          exact absurd h (formatJatraCount_ne_notStarted _)
        · intro h
          exact absurd (And.intro h.1 h.2) hz

/-- Claim C6: the Lap/Jatra Derivation Engine is a pure, deterministic
function of its input event sequence: two runs of `calculateJatraStats` on
equal inputs produce equal derived statistics (so recomputing from the same
event sequence any number of times yields identical output). -/
theorem calculateJatraStats_deterministic (pid₁ pid₂ : String)
    (logs₁ logs₂ : List ScanLog) (hpid : pid₁ = pid₂) (hlogs : logs₁ = logs₂) :
    calculateJatraStats pid₁ logs₁ = calculateJatraStats pid₂ logs₂ := by
  rw [hpid, hlogs]

/-- Concrete instance of `calculateJatraStats_deterministic`. -/
theorem calculateJatraStats_deterministic_witness :
    calculateJatraStats "p" [⟨"p", 1, "2026-01-02T08:00:00Z"⟩]
      = calculateJatraStats "p" [⟨"p", 1, "2026-01-02T08:00:00Z"⟩] :=
  calculateJatraStats_deterministic "p" "p" _ _ rfl rfl

/-- Claim C9 (counterexample): `calculateJatraStats` is not insensitive to
the order of its input. The timestamp strings `2026-01-02T08:00:00.000Z`
and `2026-01-02T08:00:00Z` denote the same instant, so the stable sort
keeps them in input order, and `lastScanTime` reports whichever string came
last: the two permutations of this two-log list yield different
`JatraStats`. -/
theorem calculateJatraStats_order_sensitive :
    ([⟨"p", 1, "2026-01-02T08:00:00.000Z"⟩, ⟨"p", 1, "2026-01-02T08:00:00Z"⟩] : List ScanLog).Perm
        [⟨"p", 1, "2026-01-02T08:00:00Z"⟩, ⟨"p", 1, "2026-01-02T08:00:00.000Z"⟩] ∧
      calculateJatraStats "p"
          [⟨"p", 1, "2026-01-02T08:00:00.000Z"⟩, ⟨"p", 1, "2026-01-02T08:00:00Z"⟩]
        ≠ calculateJatraStats "p"
          [⟨"p", 1, "2026-01-02T08:00:00Z"⟩, ⟨"p", 1, "2026-01-02T08:00:00.000Z"⟩] := by
  constructor
  · exact List.Perm.swap _ _ _
  · intro h
    have := congrArg JatraStats.lastScanTime h
    simp only [calculateJatraStats, jatraStatsOfLogs, orderedEventsFor] at this
    exact absurd this (by decide)

/-- Claim C9 (amended): permuting the input log list never changes the
derived counts (`totalJatras`, `ghetiScans`, `aamliScans`,
`frontSideScans`), `isCurrentlyDescending`, or `participantId`; and when no
two of the participant's logs carry timestamps parsing to the same instant,
the whole `JatraStats` record — `lastScanTime` included — is
permutation-invariant. (With two distinct timestamp strings for the same
instant, `lastScanTime` can differ between permutations.) -/
theorem calculateJatraStats_perm_invariant (participantId : String)
    (logs₁ logs₂ : List ScanLog) (hp : logs₁.Perm logs₂) :
    ((calculateJatraStats participantId logs₁).totalJatras
        = (calculateJatraStats participantId logs₂).totalJatras ∧
      (calculateJatraStats participantId logs₁).ghetiScans
        = (calculateJatraStats participantId logs₂).ghetiScans ∧
      (calculateJatraStats participantId logs₁).aamliScans
        = (calculateJatraStats participantId logs₂).aamliScans ∧
      (calculateJatraStats participantId logs₁).frontSideScans
        = (calculateJatraStats participantId logs₂).frontSideScans ∧
      (calculateJatraStats participantId logs₁).isCurrentlyDescending
        = (calculateJatraStats participantId logs₂).isCurrentlyDescending ∧
      (calculateJatraStats participantId logs₁).participantId
        = (calculateJatraStats participantId logs₂).participantId) ∧
    ((logs₁.filter (fun log => log.participantId = participantId)).Pairwise
        (fun a b => parseTime a.timestamp ≠ parseTime b.timestamp) →
      calculateJatraStats participantId logs₁ = calculateJatraStats participantId logs₂) := by
  have hcount : ∀ cp : Int, scansAt participantId cp logs₁ = scansAt participantId cp logs₂ :=
    fun cp => hp.countP_eq _
  have hfield : ∀ cp : Int,
      ((orderedEventsFor participantId logs₁).filter
          (fun log => log.checkpointId = cp)).length
        = ((orderedEventsFor participantId logs₂).filter
          (fun log => log.checkpointId = cp)).length := by
    intro cp
    rw [orderedEventsFor_count, orderedEventsFor_count]
    exact hcount cp
  constructor
  · refine ⟨hfield 2, hfield 2, hfield 1, hfield 3, ?_, rfl⟩
    show decide (_ > _) = decide (_ > _)
    rw [hfield 1, hfield 2]
  · intro hd
    have hfp : (logs₁.filter (fun log => log.participantId = participantId)).Perm
        (logs₂.filter (fun log => log.participantId = participantId)) := hp.filter _
    unfold calculateJatraStats orderedEventsFor
    rw [sortByKey_eq_of_perm (fun log => parseTime log.timestamp) hfp hd]

/-- Concrete instance of `calculateJatraStats_perm_invariant`: two logs at
distinct instants, swapped. -/
theorem calculateJatraStats_perm_invariant_witness :
    calculateJatraStats "p"
        [⟨"p", 1, "2026-01-02T08:00:00Z"⟩, ⟨"p", 2, "2026-01-02T09:00:00Z"⟩]
      = calculateJatraStats "p"
        [⟨"p", 2, "2026-01-02T09:00:00Z"⟩, ⟨"p", 1, "2026-01-02T08:00:00Z"⟩] :=
  (calculateJatraStats_perm_invariant "p"
      [⟨"p", 1, "2026-01-02T08:00:00Z"⟩, ⟨"p", 2, "2026-01-02T09:00:00Z"⟩]
      [⟨"p", 2, "2026-01-02T09:00:00Z"⟩, ⟨"p", 1, "2026-01-02T08:00:00Z"⟩]
      (List.Perm.swap _ _ _)).2 (by decide)

/-! ### The Missing/At-risk Detector
(`components/missing-pilgrim-alert.tsx`) -/

/-- Transit alert threshold in milliseconds: 5 hours between Aamli and
Gheti (`TRANSIT_ALERT_THRESHOLD` in `missing-pilgrim-alert.tsx`). -/
def TRANSIT_ALERT_THRESHOLD : Int := 5 * 60 * 60 * 1000

/-- Inactivity alert threshold in milliseconds: 5 hours since the last scan
(`INACTIVE_ALERT_THRESHOLD` in `missing-pilgrim-alert.tsx`). -/
def INACTIVE_ALERT_THRESHOLD : Int := 5 * 60 * 60 * 1000

/-- The fields of a registered participant the detector touches. -/
structure Participant where
  id : String
  name : String
  mobile : String
deriving DecidableEq

/-- The alert kind of a `MissingPilgrim` entry. -/
inductive AlertType where
  | in_transit
  | inactive
deriving DecidableEq

/-- An entry of the missing-pilgrim alert list (`MissingPilgrim` in
`missing-pilgrim-alert.tsx`); `lastScanTime` is the parsed epoch
milliseconds of the last scan and `timeSinceLastScan` is in minutes. -/
structure MissingPilgrim where
  participant : Participant
  alertType : AlertType
  lastScanTime : Int
  lastCheckpoint : String
  timeSinceLastScan : Int
deriving DecidableEq

/-- The `checkpointNames` record lookup with its `|| "Unknown"` fallback. -/
def checkpointNameOrUnknown (checkpointId : Int) : String :=
  if checkpointId = 1 then "Aamli"
  else if checkpointId = 2 then "Gheti"
  else if checkpointId = 3 then "Front Side"
  else "Unknown"

/-- The inactive branch's "last checkpoint" lookup: the participant's logs
sorted descending by timestamp, first entry's checkpoint name. -/
def inactiveLastCheckpoint (participantId : String) (scanLogs : List ScanLog) : String :=
  match (sortByKeyDesc (fun log => parseTime log.timestamp)
      (scanLogs.filter (fun log => log.participantId = participantId))).head? with
  | some lastLog => checkpointNameOrUnknown lastLog.checkpointId
  | none => "Unknown"

/-- The per-participant body of the `missingPilgrims` loop: skip
participants who were never scanned; raise an in-transit alert when
currently descending for longer than the transit threshold, else an
inactive alert when the last scan of any kind is older than the inactivity
threshold. -/
def alertFor (now : Int) (scanLogs : List ScanLog) (participant : Participant) :
    Option MissingPilgrim :=
  let stats := calculateJatraStats participant.id scanLogs
  match stats.lastScanTime with
  | none => none
  | some ts =>
    let lastScanDate := parseTime ts
    let timeSinceLastScan := now - lastScanDate
    let timeSinceLastScanMinutes := Int.fdiv timeSinceLastScan 60000
    if stats.isCurrentlyDescending = true ∧ timeSinceLastScan > TRANSIT_ALERT_THRESHOLD then
      some { participant := participant
             alertType := AlertType.in_transit
             lastScanTime := lastScanDate
             lastCheckpoint := "Aamli"
             timeSinceLastScan := timeSinceLastScanMinutes }
    else if timeSinceLastScan > INACTIVE_ALERT_THRESHOLD then
      some { participant := participant
             alertType := AlertType.inactive
             lastScanTime := lastScanDate
             lastCheckpoint := inactiveLastCheckpoint participant.id scanLogs
             timeSinceLastScan := timeSinceLastScanMinutes }
    else none

/-- Embedding of the `missingPilgrims` computation of
`missing-pilgrim-alert.tsx`: one alert per qualifying participant, sorted
most-overdue first. -/
def missingPilgrims (now : Int) (participants : List Participant)
    (scanLogs : List ScanLog) : List MissingPilgrim :=
  sortByKeyDesc (fun alert => alert.timeSinceLastScan)
    (participants.filterMap (alertFor now scanLogs))

/-- Modelled from the spec: the at-risk condition of §4.6 — currently
`Descending` and past the transit threshold since the last event, or past
the inactivity threshold since the last event of any kind "while the
subject has started but not finished the pilgrimage for the day"; having
started is having at least one event, and being finished for the day is
having a checkpoint-3 scan (the checkpoint configuration reads "Final scan
at X = Day complete"). -/
def specAtRisk (now : Int) (scanLogs : List ScanLog) (p : Participant) : Bool :=
  let stats := calculateJatraStats p.id scanLogs
  match stats.lastScanTime with
  | none => false
  | some ts =>
    let delta := now - parseTime ts
    (stats.isCurrentlyDescending && decide (delta > TRANSIT_ALERT_THRESHOLD)) ||
      (decide (delta > INACTIVE_ALERT_THRESHOLD)
        && !(scanLogs.filter (fun log => log.participantId = p.id)).isEmpty
        && !(scanLogs.any (fun log => log.participantId = p.id && log.checkpointId = 3)))

/-- An alert produced for a participant carries that participant. -/
theorem alertFor_participant (now : Int) (scanLogs : List ScanLog)
    (q : Participant) (a : MissingPilgrim) (h : alertFor now scanLogs q = some a) :
    a.participant = q := by
  unfold alertFor at h
  dsimp only [] at h
  rcases hls : (calculateJatraStats q.id scanLogs).lastScanTime with _ | ts
  · rw [hls] at h
    simp at h
  · rw [hls] at h
    dsimp only [] at h
    by_cases hc1 : (calculateJatraStats q.id scanLogs).isCurrentlyDescending = true ∧
        now - parseTime ts > TRANSIT_ALERT_THRESHOLD
    · rw [if_pos hc1] at h
      rw [← Option.some.inj h]
    · rw [if_neg hc1] at h
      by_cases hc2 : now - parseTime ts > INACTIVE_ALERT_THRESHOLD
      · rw [if_pos hc2] at h
        rw [← Option.some.inj h]
      · rw [if_neg hc2] at h
        cases h

/-- Claim C5 (counterexample): a subject whose only event is a checkpoint-3
(front-side, day-complete) scan six hours ago is flagged by the detector,
although per the claim they have finished the pilgrimage for the day and
are not descending, so none of the claim's conditions hold. -/
theorem missing_detector_flags_finished_subject :
    (missingPilgrims 1767362400000 [⟨"p", "N", "M"⟩]
          [⟨"p", 3, "2026-01-02T08:00:00Z"⟩]).map MissingPilgrim.participant
        = [⟨"p", "N", "M"⟩] ∧
      specAtRisk 1767362400000 [⟨"p", 3, "2026-01-02T08:00:00Z"⟩] ⟨"p", "N", "M"⟩ = false := by
  constructor
  · rfl
  · rfl

/-- Claim C5 (amended): the detector flags a subject exactly when the
subject has been scanned at least once and strictly more than 5 hours have
passed since their last event — a currently-descending subject is labelled
in-transit, any other is labelled inactive, with no finished-for-the-day
exemption; in particular a Descending subject whose last event is 5h01m old
is flagged and one whose last event is 4h59m old is not. -/
theorem missingPilgrims_flags_iff (now : Int) (participants : List Participant)
    (scanLogs : List ScanLog) (p : Participant) (hp : p ∈ participants) :
    p ∈ (missingPilgrims now participants scanLogs).map MissingPilgrim.participant ↔
      ∃ ts, (calculateJatraStats p.id scanLogs).lastScanTime = some ts ∧
        now - parseTime ts > INACTIVE_ALERT_THRESHOLD := by
  have hmem : p ∈ (missingPilgrims now participants scanLogs).map MissingPilgrim.participant ↔
      p ∈ (participants.filterMap (alertFor now scanLogs)).map MissingPilgrim.participant := by
    exact ((sortByKey_perm _ _).map MissingPilgrim.participant).mem_iff
  rw [hmem]
  rw [List.mem_map]
  constructor
  · rintro ⟨a, ha, hap⟩
    rcases List.mem_filterMap.mp ha with ⟨q, _, hq⟩
    have hq' := alertFor_participant now scanLogs q a hq
    rw [hap] at hq'
    rw [← hq'] at hq
    unfold alertFor at hq
    dsimp only [] at hq
    rcases hls : (calculateJatraStats p.id scanLogs).lastScanTime with _ | ts
    · rw [hls] at hq
      simp at hq
    · rw [hls] at hq
      dsimp only [] at hq
      refine ⟨ts, rfl, ?_⟩
      by_cases hc1 : (calculateJatraStats p.id scanLogs).isCurrentlyDescending = true ∧
          now - parseTime ts > TRANSIT_ALERT_THRESHOLD
      · calc INACTIVE_ALERT_THRESHOLD = TRANSIT_ALERT_THRESHOLD := rfl
        _ < now - parseTime ts := hc1.2
      · rw [if_neg hc1] at hq
        by_cases hc2 : now - parseTime ts > INACTIVE_ALERT_THRESHOLD
        · exact hc2
        · rw [if_neg hc2] at hq
          cases hq
  · rintro ⟨ts, hts, hgt⟩
    have hex : ∃ a, alertFor now scanLogs p = some a ∧ a.participant = p := by
      unfold alertFor
      dsimp only []
      rw [hts]
      dsimp only []
      by_cases hd : (calculateJatraStats p.id scanLogs).isCurrentlyDescending = true ∧
          now - parseTime ts > TRANSIT_ALERT_THRESHOLD
      · rw [if_pos hd]
        exact ⟨_, rfl, rfl⟩
      · rw [if_neg hd, if_pos hgt]
        exact ⟨_, rfl, rfl⟩
    rcases hex with ⟨a, ha, hap⟩
    exact ⟨a, List.mem_filterMap.mpr ⟨p, hp, ha⟩, hap⟩

/-- Concrete instance of `missingPilgrims_flags_iff`: a descending subject
whose last (and only) event, an Aamli scan, is 5h01m old is flagged. -/
theorem missingPilgrims_flags_iff_witness :
    (⟨"p", "N", "M"⟩ : Participant) ∈
      (missingPilgrims 1767358860000 [⟨"p", "N", "M"⟩]
        [⟨"p", 1, "2026-01-02T08:00:00Z"⟩]).map MissingPilgrim.participant :=
  (missingPilgrims_flags_iff 1767358860000 [⟨"p", "N", "M"⟩]
      [⟨"p", 1, "2026-01-02T08:00:00Z"⟩] ⟨"p", "N", "M"⟩ (by decide)).mpr
    ⟨"2026-01-02T08:00:00Z", rfl, by decide⟩

/-! ### Scan validation (`server/google-sheets-logger.ts`, `validateScan`) -/

/-- A scan tracked in `GoogleSheetsLogger.recentScans`: checkpoint id,
epoch-millisecond timestamp (the source stores a `Date`) and event day. -/
structure TrackedScan where
  checkpointId : Int
  timestamp : Int
  day : Int
deriving DecidableEq

/-- The scan payload `validateScan` inspects (`ScanLogData`); `scannedAt`
is in epoch milliseconds. -/
structure ScanLogData where
  participantUuid : String
  participantName : String
  participantBadge : String
  checkpointId : Int
  checkpointName : String
  scannedAt : Int
  day : Int
deriving DecidableEq

/-- The result record of `validateScan` (`ValidationResult`). -/
structure ValidationResult where
  isValid : Bool
  warnings : List String
  errors : List String
  suggestions : List String
deriving DecidableEq

/-- JavaScript `Math.round(ms / 60000)` on an integer count of
milliseconds: floor of the real quotient plus one half. -/
def jsRoundMinutes (ms : Int) : Int :=
  Int.fdiv (2 * ms + 60000) 120000

/-- Embedding of `GoogleSheetsLogger.validateScan`. `recentScans` is the
logger's map of already-tracked scans per participant. The three checks,
in source order: a Gheti scan with no Aamli scan of the same day within 4
hours pushes a warning; a Gheti scan whose immediately preceding scan is an
Aamli pushes a warning when the duration is under 15 or over 180 minutes
(`durationMins < 15` and `> 180` on real-valued minutes equal these
millisecond bounds); a scan at the same checkpoint as the immediately
preceding one within 10 minutes pushes an error and clears `isValid` — the
only write to `isValid`. -/
def validateScan (recentScans : String → List TrackedScan) (scanData : ScanLogData) :
    ValidationResult :=
  let participantScans := recentScans scanData.participantUuid
  let lastScan := participantScans.getLast?
  let hasRecentAamli :=
    participantScans.any (fun s =>
      s.checkpointId = 1 ∧ s.day = scanData.day ∧
        scanData.scannedAt - s.timestamp < 4 * 60 * 60 * 1000)
  let ghetiWarnings : List String :=
    if scanData.checkpointId = 2 ∧ hasRecentAamli = false then
      ["Gheti scan without prior Aamli scan for badge #" ++ scanData.participantBadge]
    else []
  let ghetiSuggestions : List String :=
    if scanData.checkpointId = 2 ∧ hasRecentAamli = false then
      ["Check if Aamli scan was missed"]
    else []
  match lastScan with
  | none =>
    { isValid := true
      warnings := ghetiWarnings
      errors := []
      suggestions := ghetiSuggestions }
  | some last =>
    let durationMs := scanData.scannedAt - last.timestamp
    let fastWarnings : List String :=
      if scanData.checkpointId = 2 ∧ last.checkpointId = 1 ∧ durationMs < 15 * 60000 then
        ["Unusually fast Jatra: " ++ toString (jsRoundMinutes durationMs) ++ " minutes"]
      else []
    let fastSuggestions : List String :=
      if scanData.checkpointId = 2 ∧ last.checkpointId = 1 ∧ durationMs < 15 * 60000 then
        ["Verify scan accuracy - typical Jatra takes 30-60 minutes"]
      else []
    let slowWarnings : List String :=
      if scanData.checkpointId = 2 ∧ last.checkpointId = 1 ∧ durationMs > 180 * 60000 then
        ["Unusually slow Jatra: " ++ toString (jsRoundMinutes durationMs) ++ " minutes"]
      else []
    let slowSuggestions : List String :=
      if scanData.checkpointId = 2 ∧ last.checkpointId = 1 ∧ durationMs > 180 * 60000 then
        ["Pilgrim may have taken a long break or scan was delayed"]
      else []
    let dup := decide (last.checkpointId = scanData.checkpointId ∧ durationMs < 10 * 60000)
    { isValid := !dup
      warnings := ghetiWarnings ++ fastWarnings ++ slowWarnings
      errors :=
        if dup then
          ["Duplicate scan at " ++ scanData.checkpointName ++ " within "
            ++ toString (jsRoundMinutes durationMs) ++ " minutes"]
        else []
      suggestions := ghetiSuggestions ++ fastSuggestions ++ slowSuggestions }

/-- Claim C8: the anomaly checks of `validateScan` are advisory only.
`isValid` is false exactly when the duplicate-in-sequence condition holds
(same checkpoint as the immediately preceding scan within 10 minutes), so
a lap-duration anomaly or a completion-without-start never by itself
blocks acceptance; a lap under 15 or over 180 minutes after an Aamli scan
puts its message in `warnings` with `isValid` still true, and a Gheti scan
with no same-day Aamli within the 4-hour lookback puts its message in
`warnings`. -/
theorem validateScan_anomalies_advisory (recentScans : String → List TrackedScan)
    (scanData : ScanLogData) :
    ((validateScan recentScans scanData).isValid = false ↔
      ∃ last, (recentScans scanData.participantUuid).getLast? = some last ∧
        last.checkpointId = scanData.checkpointId ∧
          scanData.scannedAt - last.timestamp < 10 * 60000) ∧
    (∀ last, (recentScans scanData.participantUuid).getLast? = some last →
      scanData.checkpointId = 2 → last.checkpointId = 1 →
      ((scanData.scannedAt - last.timestamp < 15 * 60000 →
        ("Unusually fast Jatra: "
            ++ toString (jsRoundMinutes (scanData.scannedAt - last.timestamp))
            ++ " minutes") ∈ (validateScan recentScans scanData).warnings ∧
          (validateScan recentScans scanData).isValid = true) ∧
      (scanData.scannedAt - last.timestamp > 180 * 60000 →
        ("Unusually slow Jatra: "
            ++ toString (jsRoundMinutes (scanData.scannedAt - last.timestamp))
            ++ " minutes") ∈ (validateScan recentScans scanData).warnings ∧
          (validateScan recentScans scanData).isValid = true))) ∧
    (scanData.checkpointId = 2 →
      (recentScans scanData.participantUuid).any (fun s =>
        s.checkpointId = 1 ∧ s.day = scanData.day ∧
          scanData.scannedAt - s.timestamp < 4 * 60 * 60 * 1000) = false →
      ("Gheti scan without prior Aamli scan for badge #" ++ scanData.participantBadge)
        ∈ (validateScan recentScans scanData).warnings) := by
  unfold validateScan
  dsimp only []
  rcases hlast : (recentScans scanData.participantUuid).getLast? with _ | last
  · dsimp only []
    refine ⟨?_, ?_, ?_⟩
    · simp
    · intro last h
      cases h
    · intro h2 hno
      rw [if_pos ⟨h2, hno⟩]
      simp
  · dsimp only []
    refine ⟨?_, ?_, ?_⟩
    · constructor
      · intro h
        refine ⟨last, rfl, ?_⟩
        by_cases hdup : last.checkpointId = scanData.checkpointId ∧
            scanData.scannedAt - last.timestamp < 10 * 60000
        · exact hdup
        · rw [decide_eq_false hdup] at h
          simp at h
      · rintro ⟨last', hl', hdup⟩
        cases hl'
        rw [decide_eq_true hdup]
        rfl
    · intro last' hl'
      cases hl'
      intro h2 h1
      have hnodup : ¬(last.checkpointId = scanData.checkpointId ∧
          scanData.scannedAt - last.timestamp < 10 * 60000) := by
        rintro ⟨hc, _⟩
        rw [h1, h2] at hc
        exact absurd hc (by decide)
      constructor
      · intro hfast
        have hcond : scanData.checkpointId = 2 ∧ last.checkpointId = 1 ∧
            scanData.scannedAt - last.timestamp < 15 * 60000 := ⟨h2, h1, hfast⟩
        rw [if_pos hcond]
        refine ⟨List.mem_append.mpr (Or.inl (List.mem_append.mpr
          (Or.inr (List.mem_singleton_self _)))), ?_⟩
        rw [decide_eq_false hnodup]
        rfl
      · intro hslow
        have hcond : scanData.checkpointId = 2 ∧ last.checkpointId = 1 ∧
            scanData.scannedAt - last.timestamp > 180 * 60000 := ⟨h2, h1, hslow⟩
        rw [if_pos hcond]
        refine ⟨List.mem_append.mpr (Or.inr (List.mem_singleton_self _)), ?_⟩
        rw [decide_eq_false hnodup]
        rfl
    · intro h2 hno
      rw [if_pos ⟨h2, hno⟩]
      simp

/-- Concrete instance of `validateScan_anomalies_advisory`: a Gheti scan
five minutes after an Aamli scan is warned as unusually fast while the
result stays valid. -/
theorem validateScan_anomalies_advisory_witness :
    ("Unusually fast Jatra: 5 minutes")
        ∈ (validateScan (fun _ => [⟨1, 0, 1⟩])
          ⟨"u", "N", "7", 2, "Gheti", 300000, 1⟩).warnings ∧
      (validateScan (fun _ => [⟨1, 0, 1⟩])
        ⟨"u", "N", "7", 2, "Gheti", 300000, 1⟩).isValid = true :=
  ((validateScan_anomalies_advisory (fun _ => [⟨1, 0, 1⟩])
      ⟨"u", "N", "7", 2, "Gheti", 300000, 1⟩).2.1 ⟨1, 0, 1⟩ rfl rfl rfl).1 (by decide)

/-! ### The per-device rate limiter (`server/_core/rate-limiter.ts`) -/

/-- A map entry of the rate limiter (`RateLimitEntry`). -/
structure RateLimitEntry where
  count : Nat
  windowStart : Int
deriving DecidableEq

/-- The rate limiter configuration (`RateLimiterConfig`); the cleanup
interval only garbage-collects expired entries and is not modelled. -/
structure RateLimiterConfig where
  windowMs : Int
  maxRequests : Nat
deriving DecidableEq

/-- The result of `RateLimiter.check`. -/
structure CheckResult where
  allowed : Bool
  remaining : Int
  resetIn : Int
deriving DecidableEq

/-- Embedding of `RateLimiter.check`: open a fresh window when the key has
no entry or its window has lapsed (strictly older than `windowMs`); deny
with zero remaining once the entry's count has reached `maxRequests`;
otherwise increment the count. Returns the result together with the
updated entries map. The source's combined `!entry || expired` test is the
`none` arm plus the first `if` of the `some` arm. -/
def rlCheck (config : RateLimiterConfig) (entries : String → Option RateLimitEntry)
    (key : String) (now : Int) : CheckResult × (String → Option RateLimitEntry) :=
  match entries key with
  | none =>
    (⟨true, (config.maxRequests : Int) - 1, config.windowMs⟩,
      fun k => if k = key then some ⟨1, now⟩ else entries k)
  | some entry =>
    if now - entry.windowStart > config.windowMs then
      (⟨true, (config.maxRequests : Int) - 1, config.windowMs⟩,
        fun k => if k = key then some ⟨1, now⟩ else entries k)
    else if entry.count ≥ config.maxRequests then
      (⟨false, 0, config.windowMs - (now - entry.windowStart)⟩, entries)
    else
      (⟨true, (config.maxRequests : Int) - (entry.count + 1),
          config.windowMs - (now - entry.windowStart)⟩,
        fun k => if k = key then some ⟨entry.count + 1, entry.windowStart⟩ else entries k)

/-- The scan-creation limiter: 60 scans per minute per device
(`scanRateLimiter`). -/
def scanRateLimiterConfig : RateLimiterConfig :=
  { windowMs := 60 * 1000, maxRequests := 60 }

/-- A sequence of `check` calls for one key, threading the entries map. -/
def rlRun (config : RateLimiterConfig) (entries : String → Option RateLimitEntry)
    (key : String) : List Int → List CheckResult × (String → Option RateLimitEntry)
  | [] => ([], entries)
  | t :: ts =>
    let step := rlCheck config entries key t
    let rest := rlRun config step.2 key ts
    (step.1 :: rest.1, rest.2)

/-- Number of allowed results in a list of check results. -/
def allowedCount (results : List CheckResult) : Nat :=
  results.countP (fun r => r.allowed)

/-- Inside one window the allowed calls can only fill the count up to
`maxRequests`. -/
theorem rlRun_window_bound (config : RateLimiterConfig) :
    ∀ (ts : List Int) (entries : String → Option RateLimitEntry) (key : String)
      (e : RateLimitEntry), entries key = some e →
      (∀ t ∈ ts, t - e.windowStart ≤ config.windowMs) →
      e.count ≤ config.maxRequests →
      allowedCount (rlRun config entries key ts).1 ≤ config.maxRequests - e.count := by
  intro ts
  induction ts with
  | nil =>
    intro entries key e _ _ _
    simp [rlRun, allowedCount]
  | cons t ts ih =>
    intro entries key e hkey hwin hcount
    have hnotnew : ¬(t - e.windowStart > config.windowMs) :=
      not_lt.mpr (hwin t (List.mem_cons_self t ts))
    unfold rlRun
    rw [show rlCheck config entries key t
        = (if e.count ≥ config.maxRequests then
            (⟨false, 0, config.windowMs - (t - e.windowStart)⟩, entries)
          else
            (⟨true, (config.maxRequests : Int) - (e.count + 1),
                config.windowMs - (t - e.windowStart)⟩,
              fun k => if k = key then some ⟨e.count + 1, e.windowStart⟩ else entries k))
      from by rw [rlCheck, hkey]; dsimp only []; rw [if_neg hnotnew]]
    by_cases hfull : e.count ≥ config.maxRequests
    · rw [if_pos hfull]
      have := ih entries key e hkey (fun x hx => hwin x (List.mem_cons_of_mem t hx)) hcount
      simpa [allowedCount] using this
    · rw [if_neg hfull]
      have hle : e.count + 1 ≤ config.maxRequests := Nat.succ_le_of_lt (not_le.mp hfull)
      have := ih (fun k => if k = key then some ⟨e.count + 1, e.windowStart⟩ else entries k)
        key ⟨e.count + 1, e.windowStart⟩ (by simp)
        (fun x hx => hwin x (List.mem_cons_of_mem t hx)) hle
      simp [allowedCount, List.countP_cons] at this ⊢
      omega

/-- Claim C10: for every key, among a run of `RateLimiter.check` calls
whose times all fall within one window of length `windowMs` from the
window's start (the first call of the run opens the window), at most
`maxRequests` calls return `allowed = true`; and once an entry's count has
reached `maxRequests`, every further call inside its window returns
`allowed = false` with `remaining = 0`. Instantiated at
`scanRateLimiterConfig` this bounds a device to 60 scan calls per minute. -/
theorem rateLimiter_enforces_bound (config : RateLimiterConfig)
    (hmax : 1 ≤ config.maxRequests) (entries : String → Option RateLimitEntry)
    (key : String) (now₀ : Int) (ts : List Int) (hfresh : entries key = none)
    (hwin : ∀ t ∈ ts, t - now₀ ≤ config.windowMs) :
    allowedCount (rlRun config entries key (now₀ :: ts)).1 ≤ config.maxRequests ∧
    (∀ (entries₂ : String → Option RateLimitEntry) (e : RateLimitEntry) (t : Int),
      entries₂ key = some e → config.maxRequests ≤ e.count →
      t - e.windowStart ≤ config.windowMs →
      (rlCheck config entries₂ key t).1.allowed = false ∧
        (rlCheck config entries₂ key t).1.remaining = 0) := by
  constructor
  · unfold rlRun
    rw [show rlCheck config entries key now₀
        = (⟨true, (config.maxRequests : Int) - 1, config.windowMs⟩,
            fun k => if k = key then some ⟨1, now₀⟩ else entries k)
      from by rw [rlCheck, hfresh]]
    have := rlRun_window_bound config ts
      (fun k => if k = key then some ⟨1, now₀⟩ else entries k) key ⟨1, now₀⟩
      (by simp) hwin hmax
    simp [allowedCount, List.countP_cons] at this ⊢
    omega
  · intro entries₂ e t hkey hfull hin
    have hnotnew : ¬(t - e.windowStart > config.windowMs) := not_lt.mpr hin
    rw [show rlCheck config entries₂ key t
        = (⟨false, 0, config.windowMs - (t - e.windowStart)⟩, entries₂)
      from by rw [rlCheck, hkey]; dsimp only []; rw [if_neg hnotnew, if_pos hfull]]
    exact ⟨rfl, rfl⟩

/-- Concrete instance of `rateLimiter_enforces_bound` for the scan limiter:
an empty map, a window opened at time 0 and two further calls inside the
minute. -/
theorem rateLimiter_enforces_bound_witness :
    allowedCount (rlRun scanRateLimiterConfig (fun _ => none) "device:a"
        (0 :: [1000, 59000])).1 ≤ scanRateLimiterConfig.maxRequests ∧
    (∀ (entries₂ : String → Option RateLimitEntry) (e : RateLimitEntry) (t : Int),
      entries₂ "device:a" = some e → scanRateLimiterConfig.maxRequests ≤ e.count →
      t - e.windowStart ≤ scanRateLimiterConfig.windowMs →
      (rlCheck scanRateLimiterConfig entries₂ "device:a" t).1.allowed = false ∧
        (rlCheck scanRateLimiterConfig entries₂ "device:a" t).1.remaining = 0) :=
  rateLimiter_enforces_bound scanRateLimiterConfig (by decide) (fun _ => none)
    "device:a" 0 [1000, 59000] rfl (by decide)

/-! ### The Idempotent Ingestion Gate

The router (`server/routers.ts`, `scanLogs.create`) delegates to
`db.createScanLog`, whose implementation file is not among the sources at
hand — only its callers, the migration's dedup indexes and its tests are.
The gate is therefore modelled from specification §4.2/§8; the
`DUPLICATE_RATE_LIMIT_MS` constant itself is source
(`constants/checkpoints.ts`). -/

/-- Duplicate-scan window in milliseconds (10 minutes), from
`constants/checkpoints.ts` (`DUPLICATE_RATE_LIMIT_MS`). -/
def DUPLICATE_RATE_LIMIT_MS : Int := 10 * 60 * 1000

/-- Modelled from the spec: a candidate scan event of the Event Log Store —
client-generated unique `id`, subject, checkpoint and occurrence time in
epoch milliseconds (§3, ScanEvent). -/
structure ScanEvent where
  id : String
  subjectId : String
  checkpointId : Int
  occurredAt : Int
deriving DecidableEq

/-- Modelled from the spec: the gate's result value
`{accepted: bool, duplicate: bool}` (§6 Submit, §8). -/
structure SubmitResult where
  accepted : Bool
  duplicate : Bool
deriving DecidableEq

/-- Modelled from the spec: the retryable failure distinct from a duplicate
rejection (§4.2 failure semantics, `TransientStorageError`). -/
inductive GateError where
  | transientStorage
deriving DecidableEq

/-- Modelled from the spec: the most recent accepted event for a
`(subjectId, checkpointId)` pair (§4.2 step 2); ties in `occurredAt` keep
the earlier insertion (first writer wins, §4.2 tie-break). -/
def lastAccepted (events : List ScanEvent) (subjectId : String)
    (checkpointId : Int) : Option ScanEvent :=
  events.foldl
    (fun acc e =>
      if e.subjectId = subjectId ∧ e.checkpointId = checkpointId then
        match acc with
        | none => some e
        | some cur => if cur.occurredAt < e.occurredAt then some e else acc
      else acc)
    none

/-- Modelled from the spec: the Idempotent Ingestion Gate behind
`scanLogs.create` (§4.2). Step 1: an event with an already-stored `id` is
an idempotent replay — report success, store nothing. Step 2: if the pair's
most recent accepted event is closer than `DUPLICATE_RATE_LIMIT_MS`, reject
as a duplicate — a first-class `ok` value with `duplicate := true`, never
an error. Step 3: otherwise persist; only this step can surface a
transient storage failure (`storageOk` models the storage layer's health). -/
def submitScan (storageOk : Bool) (events : List ScanEvent) (candidate : ScanEvent) :
    Except GateError (SubmitResult × List ScanEvent) :=
  if events.any (fun e => e.id = candidate.id) then
    Except.ok (⟨true, false⟩, events)
  else
    match lastAccepted events candidate.subjectId candidate.checkpointId with
    | some last =>
      if candidate.occurredAt - last.occurredAt < DUPLICATE_RATE_LIMIT_MS then
        Except.ok (⟨true, true⟩, events)
      else if storageOk then
        Except.ok (⟨true, false⟩, events ++ [candidate])
      else
        Except.error GateError.transientStorage
    | none =>
      if storageOk then
        Except.ok (⟨true, false⟩, events ++ [candidate])
      else
        Except.error GateError.transientStorage

/-- Appending an event for a pair with no prior accepted event makes it the
pair's most recent accepted event. -/
theorem lastAccepted_append_of_none (events : List ScanEvent) (e : ScanEvent)
    (hnone : lastAccepted events e.subjectId e.checkpointId = none) :
    lastAccepted (events ++ [e]) e.subjectId e.checkpointId = some e := by
  unfold lastAccepted at hnone ⊢
  rw [List.foldl_append, hnone]
  simp

/-- Claim C2 (spec-modelled): for a `(subjectId, checkpointId)` pair with no
prior accepted event and healthy storage, the first submission is accepted
with `duplicate = false`; a second submission for the same pair (with a
fresh event id) closer than `DUPLICATE_RATE_LIMIT_MS` (10 minutes) returns
`duplicate = true` and stores nothing, while one at or beyond the window is
accepted with `duplicate = false`. -/
theorem duplicate_window_behaviour (events : List ScanEvent) (e₁ e₂ : ScanEvent)
    (hpair₁ : e₂.subjectId = e₁.subjectId) (hpair₂ : e₂.checkpointId = e₁.checkpointId)
    (hfresh₁ : events.any (fun e => e.id = e₁.id) = false)
    (hnone : lastAccepted events e₁.subjectId e₁.checkpointId = none)
    (hfresh₂ : events.any (fun e => e.id = e₂.id) = false)
    (hids : e₁.id ≠ e₂.id) :
    submitScan true events e₁ = Except.ok (⟨true, false⟩, events ++ [e₁]) ∧
    (e₂.occurredAt - e₁.occurredAt < DUPLICATE_RATE_LIMIT_MS →
      submitScan true (events ++ [e₁]) e₂ = Except.ok (⟨true, true⟩, events ++ [e₁])) ∧
    (DUPLICATE_RATE_LIMIT_MS ≤ e₂.occurredAt - e₁.occurredAt →
      submitScan true (events ++ [e₁]) e₂
        = Except.ok (⟨true, false⟩, (events ++ [e₁]) ++ [e₂])) := by
  have hsub₁ : submitScan true events e₁ = Except.ok (⟨true, false⟩, events ++ [e₁]) := by
    unfold submitScan
    rw [hfresh₁]
    rw [hnone]
    rfl
  have hany₂ : (events ++ [e₁]).any (fun e => e.id = e₂.id) = false := by
    rw [List.any_append, hfresh₂]
    simp [hids]
  have hlast : lastAccepted (events ++ [e₁]) e₂.subjectId e₂.checkpointId = some e₁ := by
    rw [hpair₁, hpair₂]
    exact lastAccepted_append_of_none events e₁ hnone
  refine ⟨hsub₁, ?_, ?_⟩
  · intro hin
    unfold submitScan
    rw [hany₂]
    rw [hlast]
    dsimp only []
    rw [if_pos hin]
    rfl
  · intro hout
    unfold submitScan
    rw [hany₂]
    rw [hlast]
    dsimp only []
    rw [if_neg (not_lt.mpr hout), if_pos rfl]
    rfl

/-- Concrete instance of `duplicate_window_behaviour`: two scans of the
same subject at the same checkpoint five minutes apart — the second is
reported as a duplicate. -/
theorem duplicate_window_behaviour_witness :
    submitScan true [] (⟨"id1", "s", 1, 0⟩ : ScanEvent)
        = Except.ok (⟨true, false⟩, [⟨"id1", "s", 1, 0⟩]) ∧
      submitScan true [⟨"id1", "s", 1, 0⟩] (⟨"id2", "s", 1, 300000⟩ : ScanEvent)
        = Except.ok (⟨true, true⟩, [⟨"id1", "s", 1, 0⟩]) := by
  have h := duplicate_window_behaviour [] ⟨"id1", "s", 1, 0⟩ ⟨"id2", "s", 1, 300000⟩
    rfl rfl rfl rfl rfl (by decide)
  exact ⟨h.1, h.2.1 (by decide)⟩

/-- Claim C3 (spec-modelled): the append is idempotent in the event id.
Submitting a fresh event whose pair is outside any duplicate window stores
it; submitting the very same event again reports `accepted = true` and
leaves the store unchanged, so exactly one copy of the id is ever stored. -/
theorem submit_idempotent_in_id (events : List ScanEvent) (e : ScanEvent)
    (hfresh : events.any (fun x => x.id = e.id) = false)
    (hwin : ∀ last, lastAccepted events e.subjectId e.checkpointId = some last →
      DUPLICATE_RATE_LIMIT_MS ≤ e.occurredAt - last.occurredAt) :
    submitScan true events e = Except.ok (⟨true, false⟩, events ++ [e]) ∧
    (events ++ [e]).countP (fun x => x.id = e.id) = 1 ∧
    submitScan true (events ++ [e]) e = Except.ok (⟨true, false⟩, events ++ [e]) := by
  have hzero : events.countP (fun x => x.id = e.id) = 0 := by
    rw [List.countP_eq_zero]
    intro a ha
    have := List.any_eq_false.mp hfresh a ha
    simpa using this
  refine ⟨?_, ?_, ?_⟩
  · unfold submitScan
    rw [hfresh]
    rcases hl : lastAccepted events e.subjectId e.checkpointId with _ | last
    · rfl
    · dsimp only []
      rw [if_neg (not_lt.mpr (hwin last hl)), if_pos rfl]
      rfl
  · rw [List.countP_append, hzero]
    simp
  · unfold submitScan
    have : (events ++ [e]).any (fun x => x.id = e.id) = true := by
      rw [List.any_append]
      simp
    rw [this]
    rfl

/-- Concrete instance of `submit_idempotent_in_id`: the same event
submitted twice ends up stored once, both calls succeeding. -/
theorem submit_idempotent_in_id_witness :
    submitScan true [] (⟨"id1", "s", 1, 0⟩ : ScanEvent)
        = Except.ok (⟨true, false⟩, [⟨"id1", "s", 1, 0⟩]) ∧
      ([(⟨"id1", "s", 1, 0⟩ : ScanEvent)]).countP (fun x => x.id = "id1") = 1 ∧
      submitScan true [⟨"id1", "s", 1, 0⟩] (⟨"id1", "s", 1, 0⟩ : ScanEvent)
        = Except.ok (⟨true, false⟩, [⟨"id1", "s", 1, 0⟩]) :=
  submit_idempotent_in_id [] ⟨"id1", "s", 1, 0⟩ rfl (fun last hl => by cases hl)

/-- Claim C7 (spec-modelled): a duplicate rejection is a first-class result
value, never a thrown error: whenever the duplicate-window condition holds
for a fresh event id, the gate returns `ok` with `duplicate = true` and an
unchanged store, whatever the storage layer's health. -/
theorem duplicate_returned_not_thrown (storageOk : Bool) (events : List ScanEvent)
    (candidate last : ScanEvent)
    (hfresh : events.any (fun e => e.id = candidate.id) = false)
    (hlast : lastAccepted events candidate.subjectId candidate.checkpointId = some last)
    (hwin : candidate.occurredAt - last.occurredAt < DUPLICATE_RATE_LIMIT_MS) :
    submitScan storageOk events candidate = Except.ok (⟨true, true⟩, events) := by
  unfold submitScan
  rw [hfresh]
  rw [hlast]
  dsimp only []
  rw [if_pos hwin]
  rfl

/-- Concrete instance of `duplicate_returned_not_thrown`, with failing
storage: the duplicate still comes back as a normal result. -/
theorem duplicate_returned_not_thrown_witness :
    submitScan false [⟨"id1", "s", 1, 0⟩] (⟨"id2", "s", 1, 300000⟩ : ScanEvent)
      = Except.ok (⟨true, true⟩, [⟨"id1", "s", 1, 0⟩]) :=
  duplicate_returned_not_thrown false [⟨"id1", "s", 1, 0⟩] ⟨"id2", "s", 1, 300000⟩
    ⟨"id1", "s", 1, 0⟩ rfl rfl (by decide)

end Palitana
